import Mathlib

/-!
Shallow embedding of the Solar System Music sequencer's simulation core
(`src/utils/physics.ts`, `src/utils/audio.ts`, `src/lib/entities/*`,
`src/lib/physics/*`, `src/lib/simulation/simulation.ts`).

JavaScript numbers are modelled as real numbers (ℝ); the external Matter.js
integrator (`Matter.Engine.update`) is modelled as an opaque function
parameter on a list of rigid bodies, and the Tone.js audio sink is modelled
only through the synth-instance table it maintains (note triggering is a
side effect on audio hardware with no effect on simulation state).
Mutation in the source is modelled by explicit state passing: every
function that mutates an object returns the updated copy.
-/

namespace SolarSim

noncomputable section

open Real

open scoped Classical

/-- A 2D vector, `src/types/celestial.ts` (`Vector2D`). -/
structure Vec2 where
  x : ℝ
  y : ℝ
deriving DecidableEq

/-- JavaScript `Math.atan2 y x`, modelled by the complex argument of `x + i y`
(range `(-π, π]`, `atan2 0 0 = 0`). -/
def atan2 (y x : ℝ) : ℝ :=
  Complex.arg (Complex.mk x y)

/-- JavaScript `Math.sign` (−1, 0 or 1). -/
def jsSign (v : ℝ) : ℝ :=
  if 0 < v then 1 else if v < 0 then -1 else 0

/-- JavaScript `Math.cbrt` (sign-preserving real cube root). -/
def jsCbrt (v : ℝ) : ℝ :=
  if v < 0 then -((-v) ^ ((1 : ℝ) / 3)) else v ^ ((1 : ℝ) / 3)

/-! ## `src/utils/physics.ts` -/

/-- Gravitational constant (scaled for the simulation), `G` in
`src/utils/physics.ts`. -/
def G : ℝ := 6.674e-4

/-- The fixed physics timestep in milliseconds, `PHYSICS_DELTA_MS`. -/
def PHYSICS_DELTA_MS : ℝ := 1000 / 60

/-- The source member `circularOrbitSpeed` from `src/utils/physics.ts`. -/
def circularOrbitSpeed (centralMass orbitRadius gravityStrength : ℝ) : ℝ :=
  if orbitRadius ≤ 0 ∨ centralMass ≤ 0 then 0
  else Real.sqrt (G * centralMass * gravityStrength / orbitRadius) * PHYSICS_DELTA_MS

/-- The source member `circularOrbitVelocity` from `src/utils/physics.ts`. -/
def circularOrbitVelocity (centerPosition orbitPosition : Vec2)
    (centralMass gravityStrength : ℝ) (clockwise : Bool) : Vec2 :=
  let dx := orbitPosition.x - centerPosition.x
  let dy := orbitPosition.y - centerPosition.y
  let r := Real.sqrt (dx * dx + dy * dy)
  if r = 0 then ⟨0, 0⟩
  else
    let speed := circularOrbitSpeed centralMass r gravityStrength
    if clockwise then ⟨dy / r * speed, -dx / r * speed⟩
    else ⟨-dy / r * speed, dx / r * speed⟩

/-- The source member `gravitationalForce` from `src/utils/physics.ts`: force on body A exerted by
body B, magnitude `G·mA·mB·strength / r²`, directed from A toward B; the zero
vector when the positions coincide. -/
def gravitationalForce (posA posB : Vec2) (massA massB gravityStrength : ℝ) : Vec2 :=
  let dx := posB.x - posA.x
  let dy := posB.y - posA.y
  let distSq := dx * dx + dy * dy
  if distSq = 0 then ⟨0, 0⟩
  else
    let dist := Real.sqrt distSq
    let forceMag := G * massA * massB * gravityStrength / distSq
    ⟨dx / dist * forceMag, dy / dist * forceMag⟩

/-- The source member `orbitalPeriod` from `src/utils/physics.ts` (Kepler's third law). -/
def orbitalPeriod (orbitRadius centralMass gravityStrength : ℝ) : ℝ :=
  if orbitRadius ≤ 0 ∨ centralMass ≤ 0 then 0
  else 2 * π * Real.sqrt (orbitRadius ^ 3 / (G * centralMass * gravityStrength))

/-- The source member `distance` from `src/utils/physics.ts`. -/
def distance (a b : Vec2) : ℝ :=
  let dx := b.x - a.x
  let dy := b.y - a.y
  Real.sqrt (dx * dx + dy * dy)

/-- The source member `orbitalAngle` from `src/utils/physics.ts`: angle of `position` around
`center` measured from the positive X axis. -/
def orbitalAngle (center position : Vec2) : ℝ :=
  atan2 (position.y - center.y) (position.x - center.x)

/-- The source member `angleFromTop` from `src/utils/physics.ts`: clockwise angle from 12 o'clock,
in `[0, 2π)`. -/
def angleFromTop (center position : Vec2) : ℝ :=
  let angle := atan2 (position.x - center.x) (-(position.y - center.y))
  if angle < 0 then angle + 2 * π else angle

/-! ## `src/utils/audio.ts` -/

/-- The source member `VOLUME_MIN` from `src/utils/audio.ts`. -/
def VOLUME_MIN : ℝ := 0.01

/-- The source member `VOLUME_MAX` from `src/utils/audio.ts`. -/
def VOLUME_MAX : ℝ := 1.0

/-- The source member `MAX_AUDIBLE_DISTANCE` from `src/utils/audio.ts`. -/
def MAX_AUDIBLE_DISTANCE : ℝ := 600

/-- The source member `distanceToVolume` from `src/utils/audio.ts`. The source's `maxDistance`
parameter defaults to `MAX_AUDIBLE_DISTANCE`; here it is always passed
explicitly. -/
def distanceToVolume (dist maxDistance : ℝ) : ℝ :=
  if dist ≤ 0 then VOLUME_MAX
  else if maxDistance ≤ 0 then VOLUME_MIN
  else
    let normalized := min (dist / maxDistance) 1
    let volume := VOLUME_MAX - normalized * (VOLUME_MAX - VOLUME_MIN)
    max VOLUME_MIN (min VOLUME_MAX volume)

/-- Note-duration categories, `NoteDuration` in `src/types/celestial.ts`. -/
inductive NoteDuration where
  | whole
  | half
  | quarter
  | eighth
  | sixteenth
deriving DecidableEq

/-- The source member `DURATION_BEATS` from `src/utils/audio.ts`. -/
def DURATION_BEATS : NoteDuration → ℝ
  | .whole => 4
  | .half => 2
  | .quarter => 1
  | .eighth => 0.5
  | .sixteenth => 0.25

/-- The source member `noteDurationToMs` from `src/utils/audio.ts`. -/
def noteDurationToMs (duration : NoteDuration) (bpm : ℝ) : ℝ :=
  if bpm ≤ 0 then 0
  else DURATION_BEATS duration * (60000 / bpm)

/-- The source member `noteDurationToSeconds` from `src/utils/audio.ts`. -/
def noteDurationToSeconds (duration : NoteDuration) (bpm : ℝ) : ℝ :=
  noteDurationToMs duration bpm / 1000

/-! ## `src/lib/audio/scales.ts`

The `MusicalKey` and `MusicalMode` string unions of `src/types/celestial.ts`
are modelled as closed inductive types, so the `Record` lookups of the source
become total functions. -/

/-- The 12 musical keys (`MusicalKey`). -/
inductive MusicalKey where
  | C | Cs | D | Eb | E | F | Fs | G | Ab | A | Bb | B
deriving DecidableEq

/-- The 7 musical modes (`MusicalMode`). -/
inductive MusicalMode where
  | Ionian | Dorian | Phrygian | Lydian | Mixolydian | Aeolian | Locrian
deriving DecidableEq

/-- The source member `MODE_INTERVALS` from `src/lib/audio/scales.ts`. -/
def MODE_INTERVALS : MusicalMode → List ℕ
  | .Ionian => [0, 2, 4, 5, 7, 9, 11]
  | .Dorian => [0, 2, 3, 5, 7, 9, 10]
  | .Phrygian => [0, 1, 3, 5, 7, 8, 10]
  | .Lydian => [0, 2, 4, 6, 7, 9, 11]
  | .Mixolydian => [0, 2, 4, 5, 7, 9, 10]
  | .Aeolian => [0, 2, 3, 5, 7, 8, 10]
  | .Locrian => [0, 1, 3, 5, 6, 8, 10]

/-- The source member `DEGREE_TO_INDEX` from `src/lib/audio/scales.ts`. -/
def DEGREE_TO_INDEX : String → Option ℕ
  | "I" => some 0
  | "II" => some 1
  | "III" => some 2
  | "IV" => some 3
  | "V" => some 4
  | "VI" => some 5
  | "VII" => some 6
  | _ => none

/-- The source member `CHROMATIC_NOTES` from `src/lib/audio/scales.ts`. -/
def CHROMATIC_NOTES : List String :=
  ["C", "C#", "D", "Eb", "E", "F", "F#", "G", "Ab", "A", "Bb", "B"]

/-- The source member `KEY_SEMITONE` from `src/lib/audio/scales.ts`. -/
def KEY_SEMITONE : MusicalKey → ℕ
  | .C => 0
  | .Cs => 1
  | .D => 2
  | .Eb => 3
  | .E => 4
  | .F => 5
  | .Fs => 6
  | .G => 7
  | .Ab => 8
  | .A => 9
  | .Bb => 10
  | .B => 11

/-- The source member `buildScale` from `src/lib/audio/scales.ts`: seven note names for one
octave of the scale of `key`/`mode` starting at `octave`. -/
def buildScale (key : MusicalKey) (mode : MusicalMode) (octave : ℤ) : List String :=
  let rootSemitone := KEY_SEMITONE key
  let intervals := MODE_INTERVALS mode
  intervals.map fun interval =>
    let totalSemitone := rootSemitone + interval
    let noteIndex := totalSemitone % 12
    let octaveOffset := totalSemitone / 12
    (CHROMATIC_NOTES.getD noteIndex "") ++ toString (octave + octaveOffset)

/-- The regex alternatives of `parseScaleDegree`, tried in source order
(`VII|VI|IV|V|III|II|I`). -/
def DEGREE_ALTERNATIVES : List String :=
  ["VII", "VI", "IV", "V", "III", "II", "I"]

/-- The source member `parseScaleDegree` from `src/lib/audio/scales.ts`: the trimmed input must
be one of the Roman numerals I–VII followed by at least one digit (the regex
`(VII|VI|IV|V|III|II|I)(\d+)`, anchored at both ends). Returns the degree and
the parsed octave. -/
def parseScaleDegree (scaleDegree : String) : Option (String × ℤ) :=
  let s := scaleDegree.trim
  match DEGREE_ALTERNATIVES.find? (fun d =>
      s.startsWith d &&
      (s.drop d.length).length > 0 &&
      (s.drop d.length).all Char.isDigit) with
  | none => none
  | some d => some (d, ((s.drop d.length).toNat? |>.getD 0))

/-- The source member `isValidScaleDegree` from `src/lib/audio/scales.ts`. -/
def isValidScaleDegree (scaleDegree : String) : Bool :=
  (parseScaleDegree scaleDegree).isSome

/-- The source member `scaleDegreeToNote` from `src/lib/audio/scales.ts`. The source throws on a
malformed degree; the only caller in the simulation core wraps the call in
`try/catch`, so the failure is modelled as `none`. -/
def scaleDegreeToNote (scaleDegree : String) (key : MusicalKey)
    (mode : MusicalMode) : Option String :=
  match parseScaleDegree scaleDegree with
  | none => none
  | some (degree, octave) =>
    match DEGREE_TO_INDEX degree with
    | none => none
    | some degreeIndex => some ((buildScale key mode octave).getD degreeIndex "")

/-- The source member `parseNoteSequence` from `src/lib/audio/scales.ts`: split on whitespace and
keep only valid scale degrees. -/
def parseNoteSequence (input : String) : List String :=
  ((input.trim.split Char.isWhitespace).filter fun s =>
    s.length > 0 && isValidScaleDegree s)

/-! ## Rigid bodies and the data model

Matter.js bodies are mutable objects that live in the engine's world and are
aliased by the entity records. Here the world is a list of immutable `Body`
records; entities hold the body's numeric id (`Option ℕ`, `none` standing for
the source's `null`), and the orchestrator dereferences ids against the
current world. -/

/-- The Matter.js body fields the simulation core reads or configures
(`createCelestialBody` in `src/lib/physics/collisions.ts` sets the collision
material; Matter assigns `id` and owns `force` accumulation). -/
structure Body where
  id : ℕ
  position : Vec2
  velocity : Vec2
  force : Vec2
  angle : ℝ
  angularVelocity : ℝ
  mass : ℝ
  isStatic : Bool
  circleRadius : ℝ
  restitution : ℝ
  friction : ℝ
  frictionAir : ℝ
  frictionStatic : ℝ

/-- The source member `createCelestialBody` from `src/lib/physics/collisions.ts`. Matter.js
assigns the body id internally; it is threaded in explicitly here. -/
def createCelestialBody (bodyId : ℕ) (x y radius mass : ℝ)
    (isStatic : Bool) : Body :=
  { id := bodyId
    position := ⟨x, y⟩
    velocity := ⟨0, 0⟩
    force := ⟨0, 0⟩
    angle := 0
    angularVelocity := 0
    mass := mass
    isStatic := isStatic
    circleRadius := radius
    restitution := 1.0
    friction := 0
    frictionAir := 0
    frictionStatic := 0 }

/-- The source member `planetRadiusFromMass` from `src/lib/rendering/renderer.ts`. -/
def planetRadiusFromMass (mass : ℝ) : ℝ :=
  max 6 (jsCbrt mass * 2.5)

/-- The source member `Star` from `src/types/celestial.ts`. `physicsBody` holds the id of the
star's static body. -/
structure Star where
  id : String
  position : Vec2
  mass : ℝ
  bpm : ℝ
  key : MusicalKey
  mode : MusicalMode
  physicsBody : Option ℕ

/-- The source member `Planet` from `src/types/celestial.ts`. -/
structure Planet where
  id : String
  position : Vec2
  velocity : Vec2
  mass : ℝ
  rotation : ℝ
  rotationSpeed : NoteDuration
  noteSequence : List String
  currentNoteIndex : ℕ
  synthType : String
  orbitRadius : ℝ
  orbitAngle : ℝ
  physicsBody : Option ℕ

/-- The source member `Satellite` from `src/types/celestial.ts` (kinematic, `physicsBody` is
always `none`). -/
structure Satellite where
  id : String
  parentPlanetId : String
  position : Vec2
  orbitRadius : ℝ
  orbitAngle : ℝ
  orbitSpeed : ℝ
  lastTriggerAngle : ℝ
  physicsBody : Option ℕ

/-- The source member `SolarSystem` from `src/types/celestial.ts` (the aggregate root). -/
structure SolarSystem where
  star : Option Star
  planets : List Planet
  satellites : List Satellite
  isPlaying : Bool
  timeScale : ℝ
  gravityStrength : ℝ

/-! ## `src/lib/physics/engine.ts` -/

/-- The source member `PhysicsConfig` from `src/lib/physics/engine.ts`. -/
structure PhysicsConfig where
  gravity : ℝ
  timeScale : ℝ

/-- The orchestrator-visible state of the Matter.js engine: the world's bodies,
the engine's own `timing.timeScale`, and the wrapper `PhysicsConfig`. -/
structure PhysicsEngineState where
  world : List Body
  timingTimeScale : ℝ
  config : PhysicsConfig

/-- The source member `createPhysicsEngine` from `src/lib/physics/engine.ts`, at the
configuration `{ gravity: 1, timeScale: 1 }` the orchestrator passes. -/
def createPhysicsEngine : PhysicsEngineState :=
  { world := [], timingTimeScale := 1, config := { gravity := 1, timeScale := 1 } }

/-- The source member `setTimeScale` from `src/lib/physics/engine.ts`: clamps to `[0, 10]` and
stores the clamped value in both `engine.timing.timeScale` and the config. -/
def setTimeScale (physicsEngine : PhysicsEngineState) (timeScale : ℝ) :
    PhysicsEngineState :=
  let clamped := max 0 (min 10 timeScale)
  { physicsEngine with
    timingTimeScale := clamped
    config := { physicsEngine.config with timeScale := clamped } }

/-- The source member `setGravityStrength` from `src/lib/physics/engine.ts`: clamps to `[0, 10]`
and stores the clamped value in the config. -/
def setGravityStrength (physicsEngine : PhysicsEngineState) (gravity : ℝ) :
    PhysicsEngineState :=
  let clamped := max 0 (min 10 gravity)
  { physicsEngine with
    config := { physicsEngine.config with gravity := clamped } }

/-- The source member `addBody` from `src/lib/physics/engine.ts` (`Matter.Composite.add`). -/
def addBody (physicsEngine : PhysicsEngineState) (body : Body) :
    PhysicsEngineState :=
  { physicsEngine with world := physicsEngine.world ++ [body] }

/-! ## `src/lib/physics/loop.ts` -/

/-- The source member `GravitySource` from `src/lib/physics/loop.ts`. In the source this holds a
live reference to the Matter body; here it holds the body id, dereferenced
against the current world on every use. -/
structure GravitySource where
  bodyId : ℕ
  mass : ℝ

/-- The source member `BodySnapshot` from `src/lib/physics/loop.ts`. -/
structure BodySnapshot where
  bodyId : ℕ
  position : Vec2
  velocity : Vec2
  angle : ℝ
  angularVelocity : ℝ

/-- The source member `PhysicsLoopState` from `src/lib/physics/loop.ts`. -/
structure PhysicsLoopState where
  isRunning : Bool
  isPaused : Bool
  frameId : Option ℕ
  lastTimestamp : Option ℝ
  initialSnapshot : List BodySnapshot

/-- The source member `createLoopState` from `src/lib/physics/loop.ts`. -/
def createLoopState : PhysicsLoopState :=
  { isRunning := false
    isPaused := false
    frameId := none
    lastTimestamp := none
    initialSnapshot := [] }

/-- The source member `captureSnapshot` from `src/lib/physics/loop.ts`: snapshot of every
non-static body's kinematics. -/
def captureSnapshot (world : List Body) : List BodySnapshot :=
  (world.filter fun b => !b.isStatic).map fun b =>
    { bodyId := b.id
      position := b.position
      velocity := b.velocity
      angle := b.angle
      angularVelocity := b.angularVelocity }

/-- The four `Matter.Body.set*` calls of `restoreSnapshot`, applied to one
body. -/
def applyBodySnapshot (b : Body) (snap : BodySnapshot) : Body :=
  { b with
    position := snap.position
    velocity := snap.velocity
    angle := snap.angle
    angularVelocity := snap.angularVelocity }

/-- The source member `restoreSnapshot` from `src/lib/physics/loop.ts`: for each snapshot entry,
look up the body with that id; if it is missing or static, skip the entry,
otherwise restore its kinematics. -/
def restoreSnapshot (world : List Body) (snapshot : List BodySnapshot) :
    List Body :=
  snapshot.foldl
    (fun w snap =>
      w.map fun b =>
        if snap.bodyId == b.id && !b.isStatic then applyBodySnapshot b snap
        else b)
    world

/-- The effect of `restoreSnapshot` on a single body: fold the snapshot
entries over the body, applying every entry whose id matches a non-static
body. `restoreSnapshot` is the world-wide map of this function (proved
below). -/
def restoreBody (snapshot : List BodySnapshot) (b : Body) : Body :=
  snapshot.foldl
    (fun b snap =>
      if snap.bodyId == b.id && !b.isStatic then applyBodySnapshot b snap
      else b)
    b

/-- The source member `applyGravity` from `src/lib/physics/loop.ts`: sums the force from every
gravity source other than the body itself, then applies the total through one
`Matter.Body.applyForce` call (which accumulates into the body's force). A
source whose body id is absent from the world contributes nothing (unreachable
in the source, where sources are live references). -/
def applyGravity (world : List Body) (gravitySources : List GravitySource)
    (gravityStrength : ℝ) : List Body :=
  world.map fun body =>
    if body.isStatic then body
    else
      let totalForce := gravitySources.foldl
        (fun acc source =>
          if source.bodyId == body.id then acc
          else
            match world.find? (fun b => b.id == source.bodyId) with
            | none => acc
            | some sourceBody =>
              let f := gravitationalForce body.position sourceBody.position
                body.mass source.mass gravityStrength
              ⟨acc.x + f.x, acc.y + f.y⟩)
        (⟨0, 0⟩ : Vec2)
      { body with force := ⟨body.force.x + totalForce.x, body.force.y + totalForce.y⟩ }

/-- The source member `pauseLoop` from `src/lib/physics/loop.ts`. -/
def pauseLoop (loopState : PhysicsLoopState) : PhysicsLoopState :=
  { loopState with isPaused := true }

/-- The source member `resumeLoop` from `src/lib/physics/loop.ts`. -/
def resumeLoop (loopState : PhysicsLoopState) : PhysicsLoopState :=
  { loopState with isPaused := false, lastTimestamp := none }

/-- The source member `saveInitialState` from `src/lib/physics/loop.ts`. -/
def saveInitialState (world : List Body) (loopState : PhysicsLoopState) :
    PhysicsLoopState :=
  { loopState with initialSnapshot := captureSnapshot world }

/-- The source member `rewindToStart` from `src/lib/physics/loop.ts`: pause, then restore the
initial snapshot. Returns the updated loop state and world. -/
def rewindToStart (world : List Body) (loopState : PhysicsLoopState) :
    PhysicsLoopState × List Body :=
  let paused := pauseLoop loopState
  (paused, restoreSnapshot world paused.initialSnapshot)

/-! ## `src/lib/entities/satellite.ts` -/

/-- The source member `MAX_SATELLITES` from `src/lib/entities/satellite.ts`. -/
def MAX_SATELLITES : ℕ := 100

/-- The source member `PULSE_DECAY_RATE` from `src/lib/entities/satellite.ts`. -/
def PULSE_DECAY_RATE : ℝ := 0.004

/-- The source member `orbitPeriodMs` from `src/lib/entities/satellite.ts`:
`T = 3000 · (r / 30)^1.5` milliseconds. -/
def orbitPeriodMs (orbitRadius : ℝ) : ℝ :=
  3000 * (orbitRadius / 30) ^ (1.5 : ℝ)

/-- The source member `CreateSatelliteOptions` from `src/lib/entities/satellite.ts` (`Option`
fields carry the source's parameter defaults). -/
structure CreateSatelliteOptions where
  parentPlanetId : String
  parentPosition : Vec2
  orbitRadius : ℝ
  startAngle : Option ℝ

/-- The source member `createSatellite` from `src/lib/entities/satellite.ts`. The module-level
`nextSatelliteId` counter is threaded in explicitly. -/
def createSatellite (nextSatelliteId : ℕ) (options : CreateSatelliteOptions) :
    Satellite :=
  let startAngle := options.startAngle.getD 0
  let periodMs := orbitPeriodMs options.orbitRadius
  let orbitSpeed := 2 * π / periodMs
  { id := "satellite-" ++ toString nextSatelliteId
    parentPlanetId := options.parentPlanetId
    position := ⟨options.parentPosition.x + Real.cos startAngle * options.orbitRadius,
                 options.parentPosition.y + Real.sin startAngle * options.orbitRadius⟩
    orbitRadius := options.orbitRadius
    orbitAngle := startAngle
    orbitSpeed := orbitSpeed
    lastTriggerAngle := startAngle
    physicsBody := none }

/-- Case 1 of `didCrossTop` (`src/lib/entities/satellite.ts`): the
wrap-around crossing, `prevTop > TWO_PI - WINDOW && currTop < WINDOW` with
`WINDOW = 0.3`. -/
def crossTopWrap (prevTop currTop : ℝ) : Prop :=
  prevTop > 2 * π - 0.3 ∧ currTop < 0.3

/-- Case 2 of `didCrossTop` (`src/lib/entities/satellite.ts`): the crossing
without wrapping, `prevTop > WINDOW && currTop <= WINDOW`. -/
def crossTopDirect (prevTop currTop : ℝ) : Prop :=
  prevTop > 0.3 ∧ currTop ≤ 0.3

/-- The source member `didCrossTop` from `src/lib/entities/satellite.ts`: the
early-return chain fires when either of the two crossing conditions holds. -/
def didCrossTop (prevTop currTop : ℝ) : Prop :=
  crossTopWrap prevTop currTop ∨ crossTopDirect prevTop currTop

/-- The source member `SatelliteUpdateResult` from `src/lib/entities/satellite.ts`. -/
structure SatelliteUpdateResult where
  satellite : Satellite
  triggered : Prop
  triggerVolume : ℝ

/-- The source member `updateSatellite` from `src/lib/entities/satellite.ts`: advance the orbit
angle by `orbitSpeed · deltaMs`, constrain the position to the circle of
radius `orbitRadius` around the current parent position, and edge-detect the
12 o'clock crossing. -/
def updateSatellite (satellite : Satellite) (parentPosition : Vec2)
    (deltaMs : ℝ) : SatelliteUpdateResult :=
  let newAngle := satellite.orbitAngle + satellite.orbitSpeed * deltaMs
  let newPosition : Vec2 :=
    ⟨parentPosition.x + Real.cos newAngle * satellite.orbitRadius,
     parentPosition.y + Real.sin newAngle * satellite.orbitRadius⟩
  let prevTop := angleFromTop parentPosition satellite.position
  let currTop := angleFromTop parentPosition newPosition
  let triggered := didCrossTop prevTop currTop
  let triggerVolume := distanceToVolume satellite.orbitRadius MAX_AUDIBLE_DISTANCE
  { satellite :=
      { satellite with
        position := newPosition
        orbitAngle := newAngle
        lastTriggerAngle :=
          if triggered then newAngle else satellite.lastTriggerAngle }
    triggered := triggered
    triggerVolume := triggerVolume }

/-- The source member `decayPulse` from `src/lib/entities/satellite.ts`. -/
def decayPulse (currentPulse deltaMs : ℝ) : ℝ :=
  max 0 (currentPulse - PULSE_DECAY_RATE * deltaMs)

/-! ## `src/lib/entities/planet.ts` -/

/-- The source member `MAX_PLANETS` from `src/lib/entities/planet.ts`. -/
def MAX_PLANETS : ℕ := 20

/-- The source member `PLANET_DEFAULT_NOTE_SEQUENCE` from `src/lib/entities/planet.ts`. -/
def PLANET_DEFAULT_NOTE_SEQUENCE : String := "I4 III4 V4 VII4"

/-- The source member `PLANET_DEFAULT_MASS` from `src/lib/entities/planet.ts`. -/
def PLANET_DEFAULT_MASS : ℝ := 100

/-- The source member `CreatePlanetOptions` from `src/lib/entities/planet.ts` (`Option` fields
carry the source's destructuring defaults). -/
structure CreatePlanetOptions where
  x : ℝ
  y : ℝ
  mass : Option ℝ
  rotationSpeed : Option NoteDuration
  noteSequence : Option String
  synthType : Option String
  star : Option Star
  gravityStrength : Option ℝ
  clockwise : Option Bool

/-- The source member `createPlanet` from `src/lib/entities/planet.ts`. The module-level
`nextPlanetId` counter and the Matter-assigned body id are threaded in
explicitly, and the created body (which the source stores as a live reference
in `physicsBody`) is returned alongside the planet so the orchestrator can add
it to the world. -/
def createPlanet (nextPlanetId bodyId : ℕ) (options : CreatePlanetOptions) :
    Planet × Body :=
  let mass := options.mass.getD PLANET_DEFAULT_MASS
  let rotationSpeed := options.rotationSpeed.getD NoteDuration.quarter
  let noteSequence := options.noteSequence.getD PLANET_DEFAULT_NOTE_SEQUENCE
  let synthType := options.synthType.getD "Synth"
  let gravityStrength := options.gravityStrength.getD 1
  let clockwise := options.clockwise.getD true
  let radius := planetRadiusFromMass mass
  let body0 := createCelestialBody bodyId options.x options.y radius mass false
  -- Auto-calculated circular orbit velocity when a star with a body is given
  let body :=
    match options.star with
    | some star =>
      if star.physicsBody.isSome then
        { body0 with
          velocity := circularOrbitVelocity star.position ⟨options.x, options.y⟩
            star.mass gravityStrength clockwise }
      else body0
    | none => body0
  let starPos := (options.star.map Star.position).getD ⟨0, 0⟩
  let initialOrbitAngle := orbitalAngle starPos ⟨options.x, options.y⟩
  ({ id := "planet-" ++ toString nextPlanetId
     position := ⟨options.x, options.y⟩
     velocity := body.velocity
     mass := mass
     rotation := 0
     rotationSpeed := rotationSpeed
     noteSequence := parseNoteSequence noteSequence
     currentNoteIndex := 0
     synthType := synthType
     orbitRadius := Real.sqrt ((options.x - starPos.x) ^ 2 + (options.y - starPos.y) ^ 2)
     orbitAngle := initialOrbitAngle
     physicsBody := some bodyId }, body)

/-- The angle-normalisation closure inside `didCrossZero`
(`src/lib/entities/planet.ts`): `while (a > π) a -= 2π; while (a < −π) a += 2π`,
written in closed form (the ceiling counts the loop iterations). The result is
in `[−π, π]`, and inputs already in `[−π, π]` are unchanged. -/
def normHalfTurn (a : ℝ) : ℝ :=
  let down := if π < a then a - 2 * π * ⌈(a - π) / (2 * π)⌉ else a
  if down < -π then down + 2 * π * ⌈(-π - down) / (2 * π)⌉ else down

/-- The source member `didCrossZero` from `src/lib/entities/planet.ts`: after normalising both
angles to `[−π, π]`, the sign flipped and the angular step is smaller than π. -/
def didCrossZero (prevAngle currentAngle : ℝ) : Prop :=
  let p := normHalfTurn prevAngle
  let c := normHalfTurn currentAngle
  jsSign p ≠ jsSign c ∧ |c - p| < π

/-- The source member `PlanetUpdateResult` from `src/lib/entities/planet.ts`. -/
structure PlanetUpdateResult where
  planet : Planet
  noteAdvanced : Prop
  newNote : Option String

/-- The source member `updatePlanet` from `src/lib/entities/planet.ts`. `bodyRef` is the
dereferenced `planet.physicsBody` (the live Matter body in the source; `none`
when the planet has no body). -/
def updatePlanet (planet : Planet) (star : Star) (deltaMs : ℝ)
    (bodyRef : Option Body) : PlanetUpdateResult :=
  match bodyRef with
  | none => { planet := planet, noteAdvanced := False, newNote := none }
  | some body =>
    let newPosition := body.position
    let newVelocity := body.velocity
    let noteDurSec := noteDurationToSeconds planet.rotationSpeed star.bpm
    let rotationDelta :=
      if noteDurSec > 0 then deltaMs / 1000 / noteDurSec * (π * 2) else 0
    let newRotation := planet.rotation + rotationDelta
    let prevOrbitAngle := planet.orbitAngle
    let currentOrbitAngle := orbitalAngle star.position newPosition
    let crossed := didCrossZero prevOrbitAngle currentOrbitAngle
    if crossed ∧ 0 < planet.noteSequence.length then
      let newNoteIndex := (planet.currentNoteIndex + 1) % planet.noteSequence.length
      { planet :=
          { planet with
            position := newPosition
            velocity := newVelocity
            rotation := newRotation
            orbitAngle := currentOrbitAngle
            currentNoteIndex := newNoteIndex }
        noteAdvanced := True
        newNote := scaleDegreeToNote (planet.noteSequence.getD newNoteIndex "")
          star.key star.mode }
    else
      { planet :=
          { planet with
            position := newPosition
            velocity := newVelocity
            rotation := newRotation
            orbitAngle := currentOrbitAngle }
        noteAdvanced := False
        newNote := none }

/-- The source member `getCurrentNote` from `src/lib/entities/planet.ts`. -/
def getCurrentNote (planet : Planet) (star : Star) : Option String :=
  if planet.noteSequence.length = 0 then none
  else scaleDegreeToNote (planet.noteSequence.getD planet.currentNoteIndex "")
    star.key star.mode

/-- The source member `setPlanetNoteSequence` from `src/lib/entities/planet.ts`. -/
def setPlanetNoteSequence (planet : Planet) (sequence : String) : Planet :=
  { planet with noteSequence := parseNoteSequence sequence, currentNoteIndex := 0 }

/-! ## `src/lib/audio/synthManager.ts`

The Tone.js synth objects are external audio resources; the manager is
modelled by the id → synth-type table it maintains. `triggerNote` only talks
to the audio hardware and changes no simulation state, so it has no model. -/

/-- The source member `SynthManager` from `src/lib/audio/synthManager.ts` (instances keyed by
planet id, insertion-ordered). -/
structure SynthManager where
  instances : List (String × String)
  maxInstances : ℕ

/-- The source member `createSynthManager` from `src/lib/audio/synthManager.ts`. -/
def createSynthManager (maxInstances : ℕ) : SynthManager :=
  { instances := [], maxInstances := maxInstances }

/-- The source member `addSynth` from `src/lib/audio/synthManager.ts`: no-op when the planet
already has a synth or the instance limit is reached. -/
def addSynth (manager : SynthManager) (planetId synthType : String) :
    SynthManager :=
  if manager.instances.any (fun inst => inst.1 == planetId) then manager
  else if manager.maxInstances ≤ manager.instances.length then manager
  else { manager with instances := manager.instances ++ [(planetId, synthType)] }

/-! ## `src/lib/simulation/simulation.ts` -/

/-- The source member `SimulationState` from `src/lib/simulation/simulation.ts`. The trigger
pulse `Map` is modelled as a total function with default 0 (the source always
reads it through `get(id) ?? 0`), and the module-level entity id counters plus
Matter's body id allocator are part of the state. -/
structure SimulationState where
  solarSystem : SolarSystem
  physicsEngine : PhysicsEngineState
  loopState : PhysicsLoopState
  synthManager : SynthManager
  lastTimestamp : ℝ
  triggerPulses : String → ℝ
  nextPlanetId : ℕ
  nextSatelliteId : ℕ
  nextBodyId : ℕ

/-- The source member `Map.set` on the trigger-pulse map. -/
def setPulse (pulses : String → ℝ) (satelliteId : String) (v : ℝ) :
    String → ℝ :=
  fun k => if k = satelliteId then v else pulses k

/-- The source member `createSimulation` from `src/lib/simulation/simulation.ts` (the
`setupCollisions` call only installs an engine event listener and changes no
state modelled here). -/
def createSimulation : SimulationState :=
  { solarSystem :=
      { star := none
        planets := []
        satellites := []
        isPlaying := false
        timeScale := 1
        gravityStrength := 1 }
    physicsEngine := createPhysicsEngine
    loopState := createLoopState
    synthManager := createSynthManager MAX_PLANETS
    lastTimestamp := 0
    triggerPulses := fun _ => 0
    nextPlanetId := 1
    nextSatelliteId := 1
    nextBodyId := 1 }

/-- The source member `addPlanet` from `src/lib/simulation/simulation.ts`: no-op at the
`MAX_PLANETS` ceiling; otherwise create the planet (overriding `star` and
`gravityStrength` with the aggregate's), add its body to the world, register
its synth and append it. `createPlanet` always attaches a body, so the
source's `if (planet.physicsBody)` guard around `addBody` always passes. -/
def addPlanet (sim : SimulationState) (options : CreatePlanetOptions) :
    SimulationState :=
  if MAX_PLANETS ≤ sim.solarSystem.planets.length then sim
  else
    let created := createPlanet sim.nextPlanetId sim.nextBodyId
      { options with
        star := sim.solarSystem.star
        gravityStrength := some sim.solarSystem.gravityStrength }
    let planet := created.1
    let body := created.2
    { sim with
      physicsEngine := addBody sim.physicsEngine body
      synthManager := addSynth sim.synthManager planet.id planet.synthType
      nextPlanetId := sim.nextPlanetId + 1
      nextBodyId := sim.nextBodyId + 1
      solarSystem :=
        { sim.solarSystem with planets := sim.solarSystem.planets ++ [planet] } }

/-- The options `addSatellite` receives (`Omit<CreateSatelliteOptions,
'parentPosition'>`). -/
structure AddSatelliteOptions where
  parentPlanetId : String
  orbitRadius : ℝ
  startAngle : Option ℝ

/-- The source member `addSatellite` from `src/lib/simulation/simulation.ts`: no-op at the
`MAX_SATELLITES` ceiling and no-op when `parentPlanetId` matches no planet;
otherwise create the satellite at the parent's current position and append
it. -/
def addSatellite (sim : SimulationState) (options : AddSatelliteOptions) :
    SimulationState :=
  if MAX_SATELLITES ≤ sim.solarSystem.satellites.length then sim
  else
    match sim.solarSystem.planets.find?
        (fun p => p.id == options.parentPlanetId) with
    | none => sim
    | some planet =>
      let satellite := createSatellite sim.nextSatelliteId
        { parentPlanetId := options.parentPlanetId
          parentPosition := planet.position
          orbitRadius := options.orbitRadius
          startAngle := options.startAngle }
      { sim with
        nextSatelliteId := sim.nextSatelliteId + 1
        solarSystem :=
          { sim.solarSystem with
            satellites := sim.solarSystem.satellites ++ [satellite] } }

/-- The source member `FIXED_STEP_MS` from `tickSimulation` (one 60 Hz frame, ≈16.67 ms). -/
def FIXED_STEP_MS : ℝ := 1000 / 60

/-- The sub-step count of `tickSimulation`:
`Math.max(1, Math.round(scaledDelta / FIXED_STEP_MS))`. JavaScript
`Math.round` is `⌊x + 1/2⌋`, which is Mathlib's `round`. -/
def schedulerSteps (scaledDelta : ℝ) : ℕ :=
  (max 1 (round (scaledDelta / FIXED_STEP_MS))).toNat

/-- The sub-step duration of `tickSimulation`: `scaledDelta / steps`. -/
def schedulerStepMs (scaledDelta : ℝ) : ℝ :=
  scaledDelta / (schedulerSteps scaledDelta : ℝ)

/-- The gravity-source list `tickSimulation` builds from the star and planets
that hold physics bodies. -/
def tickGravitySources (star : Star) (planets : List Planet) :
    List GravitySource :=
  (match star.physicsBody with
   | some bodyId => [{ bodyId := bodyId, mass := star.mass }]
   | none => []) ++
  planets.filterMap fun planet =>
    planet.physicsBody.map fun bodyId => { bodyId := bodyId, mass := planet.mass }

/-- The satellite phase of `tickSimulation`, one satellite: orphans pass
through untouched; otherwise update against the (already updated) parent
planet's position, set the pulse to 1 on a trigger, else decay a positive
pulse. The `triggerNote` call on a trigger is an audio-only side effect. -/
def tickSatelliteStep (updatedPlanets : List Planet) (deltaMs : ℝ)
    (acc : List Satellite × (String → ℝ)) (satellite : Satellite) :
    List Satellite × (String → ℝ) :=
  match updatedPlanets.find? (fun p => p.id == satellite.parentPlanetId) with
  | none => (acc.1 ++ [satellite], acc.2)
  | some parentPlanet =>
    let result := updateSatellite satellite parentPlanet.position deltaMs
    if result.triggered then
      (acc.1 ++ [result.satellite], setPulse acc.2 result.satellite.id 1)
    else
      let prev := acc.2 result.satellite.id
      if prev > 0 then
        (acc.1 ++ [result.satellite],
         setPulse acc.2 result.satellite.id (decayPulse prev deltaMs))
      else (acc.1 ++ [result.satellite], acc.2)

/-- The source member `tickSimulation` from `src/lib/simulation/simulation.ts`. `engineUpdate`
is the opaque Matter.js integrator (`Matter.Engine.update`), taking the world
and the step duration in milliseconds. No-op when paused or when there is no
star; otherwise: fixed-step scheduler (apply gravity, then integrate, `steps`
times), then the planet updates, then the satellite updates and pulse decay.
Notes fired along the way (`triggerNote`) go to the audio sink and change no
state modelled here. -/
def tickSimulation (engineUpdate : List Body → ℝ → List Body)
    (sim : SimulationState) (deltaMs : ℝ) : SimulationState :=
  if !sim.solarSystem.isPlaying then sim
  else
    match sim.solarSystem.star with
    | none => sim
    | some star =>
      let gravitySources := tickGravitySources star sim.solarSystem.planets
      let scaledDelta := deltaMs * sim.solarSystem.timeScale
      let steps := schedulerSteps scaledDelta
      let stepMs := schedulerStepMs scaledDelta
      let world := (List.range steps).foldl
        (fun w _ =>
          engineUpdate (applyGravity w gravitySources sim.solarSystem.gravityStrength)
            stepMs)
        sim.physicsEngine.world
      let updatedPlanets := sim.solarSystem.planets.map fun planet =>
        (updatePlanet planet star deltaMs
          (planet.physicsBody.bind fun bodyId =>
            world.find? (fun b => b.id == bodyId))).planet
      let satResult := sim.solarSystem.satellites.foldl
        (tickSatelliteStep updatedPlanets deltaMs) ([], sim.triggerPulses)
      { sim with
        physicsEngine := { sim.physicsEngine with world := world }
        triggerPulses := satResult.2
        solarSystem :=
          { sim.solarSystem with
            planets := updatedPlanets
            satellites := satResult.1 } }

/-- The source member `playSimulation` from `src/lib/simulation/simulation.ts`. -/
def playSimulation (sim : SimulationState) : SimulationState :=
  { sim with
    loopState := resumeLoop (saveInitialState sim.physicsEngine.world sim.loopState)
    solarSystem := { sim.solarSystem with isPlaying := true } }

/-- The source member `pauseSimulation` from `src/lib/simulation/simulation.ts`. -/
def pauseSimulation (sim : SimulationState) : SimulationState :=
  { sim with
    loopState := pauseLoop sim.loopState
    solarSystem := { sim.solarSystem with isPlaying := false } }

/-- The source member `rewindSimulation` from `src/lib/simulation/simulation.ts`:
`rewindToStart` (pause the loop, restore the initial snapshot into the world),
then force `isPlaying := false`. -/
def rewindSimulation (sim : SimulationState) : SimulationState :=
  let rewound := rewindToStart sim.physicsEngine.world sim.loopState
  { sim with
    loopState := rewound.1
    physicsEngine := { sim.physicsEngine with world := rewound.2 }
    solarSystem := { sim.solarSystem with isPlaying := false } }

/-- The source member `setSimulationTimeScale` from `src/lib/simulation/simulation.ts`: clamp
into the physics engine, but store the raw value in the aggregate. -/
def setSimulationTimeScale (sim : SimulationState) (timeScale : ℝ) :
    SimulationState :=
  { sim with
    physicsEngine := setTimeScale sim.physicsEngine timeScale
    solarSystem := { sim.solarSystem with timeScale := timeScale } }

/-- The source member `setSimulationGravity` from `src/lib/simulation/simulation.ts`: clamp into
the physics engine, but store the raw value in the aggregate. -/
def setSimulationGravity (sim : SimulationState) (gravity : ℝ) :
    SimulationState :=
  { sim with
    physicsEngine := setGravityStrength sim.physicsEngine gravity
    solarSystem := { sim.solarSystem with gravityStrength := gravity } }

/-! ## Concrete states used by the closed instances below -/

/-- A concrete star at the origin (the end-to-end scenario of the design
docs: BPM 120, key C, mode Ionian). -/
def exampleStar : Star :=
  { id := "star-1"
    position := ⟨0, 0⟩
    mass := 50000
    bpm := 120
    key := MusicalKey.C
    mode := MusicalMode.Ionian
    physicsBody := some 1 }

/-- A concrete planet at `(150, 0)` with note sequence `I4 V4`. -/
def examplePlanet : Planet :=
  { id := "planet-1"
    position := ⟨150, 0⟩
    velocity := ⟨0, 0⟩
    mass := 80
    rotation := 0
    rotationSpeed := NoteDuration.quarter
    noteSequence := ["I4", "V4"]
    currentNoteIndex := 0
    synthType := "Synth"
    orbitRadius := 150
    orbitAngle := 0
    physicsBody := some 2 }

/-- A concrete satellite of `examplePlanet` at orbit radius 1. -/
def exampleSatellite : Satellite :=
  { id := "satellite-1"
    parentPlanetId := "planet-1"
    position := ⟨151, 0⟩
    orbitRadius := 1
    orbitAngle := 0
    orbitSpeed := 2
    lastTriggerAngle := 0
    physicsBody := none }

/-- A concrete dynamic body (id 2, the body of `examplePlanet`). -/
def examplePlanetBody : Body :=
  createCelestialBody 2 150 0 (planetRadiusFromMass 80) 80 false

/-- A concrete snapshot entry for body 2. -/
def exampleSnapshot : BodySnapshot :=
  { bodyId := 2
    position := ⟨150, 0⟩
    velocity := ⟨0, 3⟩
    angle := 0
    angularVelocity := 0 }

/-- A playing simulation with `exampleStar` placed. -/
def examplePlayingSim : SimulationState :=
  { createSimulation with
    solarSystem :=
      { createSimulation.solarSystem with
        star := some exampleStar
        isPlaying := true } }

/-- A simulation already holding `MAX_PLANETS` planets. -/
def exampleFullPlanetsSim : SimulationState :=
  { createSimulation with
    solarSystem :=
      { createSimulation.solarSystem with
        planets := List.replicate 20 examplePlanet } }

/-- A simulation already holding `MAX_SATELLITES` satellites. -/
def exampleFullSatellitesSim : SimulationState :=
  { createSimulation with
    solarSystem :=
      { createSimulation.solarSystem with
        satellites := List.replicate 100 exampleSatellite } }

/-- A simulation whose world holds `examplePlanetBody` and whose saved
snapshot is `[exampleSnapshot]`. -/
def exampleRewindSim : SimulationState :=
  { createSimulation with
    physicsEngine := { createSimulation.physicsEngine with world := [examplePlanetBody] }
    loopState := { createSimulation.loopState with initialSnapshot := [exampleSnapshot] } }

/-- Planet-creation options for the witness calls. -/
def exampleCreatePlanetOptions : CreatePlanetOptions :=
  { x := 150
    y := 0
    mass := some 80
    rotationSpeed := none
    noteSequence := none
    synthType := none
    star := none
    gravityStrength := none
    clockwise := none }

/-- Satellite-creation options for the witness calls. -/
def exampleAddSatelliteOptions : AddSatelliteOptions :=
  { parentPlanetId := "planet-1"
    orbitRadius := 30
    startAngle := none }

end

/-! ## Claim theorems -/

noncomputable section

open Real

/-- C10: when the aggregate has no star, `tickSimulation` returns the state
unchanged for every frame delta and every integrator, even while playing: no
gravity application, no physics step, no planet/satellite update, no pulse
decay. -/
theorem tickSimulation_no_star_noop (engineUpdate : List Body → ℝ → List Body)
    (sim : SimulationState) (deltaMs : ℝ)
    (h : sim.solarSystem.star = none) :
    tickSimulation engineUpdate sim deltaMs = sim := by
  unfold tickSimulation
  cases hp : sim.solarSystem.isPlaying with
  | false => simp [hp]
  | true => simp [hp, h]

/-- Closed instance of `tickSimulation_no_star_noop` at a concrete starless
state. -/
theorem tickSimulation_no_star_noop_witness :
    tickSimulation (fun w _ => w) createSimulation 16 = createSimulation :=
  tickSimulation_no_star_noop (fun w _ => w) createSimulation 16 rfl

/-- C5: `addPlanet` at the 20-planet ceiling, `addSatellite` at the
100-satellite ceiling, and `addSatellite` with an unknown parent planet id
are all silent no-ops returning the input state itself. -/
theorem add_capacity_and_unknown_parent_noop :
    (∀ (sim : SimulationState) (options : CreatePlanetOptions),
      MAX_PLANETS ≤ sim.solarSystem.planets.length →
      addPlanet sim options = sim) ∧
    (∀ (sim : SimulationState) (options : AddSatelliteOptions),
      MAX_SATELLITES ≤ sim.solarSystem.satellites.length →
      addSatellite sim options = sim) ∧
    (∀ (sim : SimulationState) (options : AddSatelliteOptions),
      sim.solarSystem.planets.find? (fun p => p.id == options.parentPlanetId) = none →
      addSatellite sim options = sim) := by
  refine ⟨?_, ?_, ?_⟩
  · intro sim options h
    unfold addPlanet
    simp [h]
  · intro sim options h
    unfold addSatellite
    simp [h]
  · intro sim options h
    unfold addSatellite
    by_cases hcap : MAX_SATELLITES ≤ sim.solarSystem.satellites.length
    · simp [hcap]
    · simp [hcap, h]

/-- Closed instance of `add_capacity_and_unknown_parent_noop` at a state with
20 planets, a state with 100 satellites, and an empty state with an unknown
parent id. -/
theorem add_capacity_and_unknown_parent_noop_witness :
    addPlanet exampleFullPlanetsSim exampleCreatePlanetOptions = exampleFullPlanetsSim ∧
    addSatellite exampleFullSatellitesSim exampleAddSatelliteOptions = exampleFullSatellitesSim ∧
    addSatellite createSimulation exampleAddSatelliteOptions = createSimulation :=
  ⟨add_capacity_and_unknown_parent_noop.1 exampleFullPlanetsSim exampleCreatePlanetOptions
      (by simp [exampleFullPlanetsSim, createSimulation, MAX_PLANETS]),
   add_capacity_and_unknown_parent_noop.2.1 exampleFullSatellitesSim exampleAddSatelliteOptions
      (by simp [exampleFullSatellitesSim, createSimulation, MAX_SATELLITES]),
   add_capacity_and_unknown_parent_noop.2.2 createSimulation exampleAddSatelliteOptions rfl⟩

/-- C1 counterexample: `setSimulationTimeScale` and `setSimulationGravity`
store the raw input in the aggregate, so input 20 leaves the aggregate's
`timeScale` (resp. `gravityStrength`) at 20, outside `[0, 10]`. -/
theorem setSimulation_aggregate_unclamped_cex :
    (setSimulationTimeScale createSimulation 20).solarSystem.timeScale = 20 ∧
    (setSimulationGravity createSimulation 20).solarSystem.gravityStrength = 20 ∧
    ¬ ((20 : ℝ) ≤ 10) :=
  ⟨rfl, rfl, by norm_num⟩

/-- C1 (amended): the setters clamp the value stored in the physics engine's
configuration (and the engine's `timing.timeScale`) to `[0, 10]`, but the
aggregate receives the raw input value. -/
theorem setSimulation_clamps_engine_config_only
    (sim : SimulationState) (v : ℝ) :
    (setSimulationTimeScale sim v).solarSystem.timeScale = v ∧
    0 ≤ (setSimulationTimeScale sim v).physicsEngine.config.timeScale ∧
    (setSimulationTimeScale sim v).physicsEngine.config.timeScale ≤ 10 ∧
    (setSimulationTimeScale sim v).physicsEngine.timingTimeScale =
      (setSimulationTimeScale sim v).physicsEngine.config.timeScale ∧
    (setSimulationGravity sim v).solarSystem.gravityStrength = v ∧
    0 ≤ (setSimulationGravity sim v).physicsEngine.config.gravity ∧
    (setSimulationGravity sim v).physicsEngine.config.gravity ≤ 10 :=
  ⟨rfl,
   le_max_left 0 _,
   max_le (by norm_num) (min_le_left 10 v),
   rfl,
   rfl,
   le_max_left 0 _,
   max_le (by norm_num) (min_le_left 10 v)⟩

/-- C2 counterexample: at `prevTop = 6`, `currTop = 0.25` — both inside the
claim's `[0, 2π)` domain — the wrap condition and the direct condition of
`didCrossTop` hold simultaneously, so the two crossing conditions are not
mutually exclusive. -/
theorem didCrossTop_conditions_overlap_cex :
    (0 : ℝ) ≤ 6 ∧ (6 : ℝ) < 2 * π ∧
    (0 : ℝ) ≤ 0.25 ∧ (0.25 : ℝ) < 2 * π ∧
    crossTopWrap 6 0.25 ∧ crossTopDirect 6 0.25 := by
  have hlo : (3 : ℝ) < π := Real.pi_gt_three
  have hhi : π < 3.15 := Real.pi_lt_d2
  refine ⟨by norm_num, by linarith, by norm_num, by linarith, ⟨?_, ?_⟩, ⟨?_, ?_⟩⟩
  · unfold crossTopWrap at *
    linarith
  · norm_num
  · norm_num
  · norm_num

/-- C2 (amended): `didCrossTop` fires as the disjunction of the wrap
condition and the direct condition, but the wrap condition implies the direct
one (the window bound `0.3` is below `2π − 0.3`), so the detection is
equivalent to the direct condition alone — the two conditions overlap instead
of being mutually exclusive. -/
theorem didCrossTop_iff_direct (prevTop currTop : ℝ) :
    didCrossTop prevTop currTop ↔ crossTopDirect prevTop currTop := by
  have hlo : (3 : ℝ) < π := Real.pi_gt_three
  unfold didCrossTop crossTopWrap crossTopDirect
  constructor
  · rintro (⟨h1, h2⟩ | h)
    · exact ⟨by linarith, le_of_lt h2⟩
    · exact h
  · intro h
    exact Or.inr h

/-- Helper: a sum of two squares over ℝ vanishes only when both do. -/
lemma add_mul_self_eq_zero_iff (a b : ℝ) :
    a * a + b * b = 0 ↔ a = 0 ∧ b = 0 := by
  constructor
  · intro h
    constructor <;> nlinarith [mul_self_nonneg a, mul_self_nonneg b]
  · rintro ⟨ha, hb⟩
    rw [ha, hb]
    ring

/-- C8: Newton's third law for `gravitationalForce` — for distinct positions
and positive masses the two opposite calls give componentwise-negated (hence
equal-magnitude, opposite-direction) forces, and coincident positions give
the zero vector instead of a division by zero. -/
theorem gravitationalForce_newton_third :
    (∀ (posA posB : Vec2) (massA massB s : ℝ), posA ≠ posB → 0 < massA → 0 < massB →
      (gravitationalForce posA posB massA massB s).x =
        -(gravitationalForce posB posA massB massA s).x ∧
      (gravitationalForce posA posB massA massB s).y =
        -(gravitationalForce posB posA massB massA s).y) ∧
    (∀ (p : Vec2) (massA massB s : ℝ),
      gravitationalForce p p massA massB s = ⟨0, 0⟩) := by
  constructor
  · intro posA posB massA massB s hne hmA hmB
    have hswap : (posA.x - posB.x) * (posA.x - posB.x) +
        (posA.y - posB.y) * (posA.y - posB.y) =
        (posB.x - posA.x) * (posB.x - posA.x) +
        (posB.y - posA.y) * (posB.y - posA.y) := by
      ring
    have hdsq : (posB.x - posA.x) * (posB.x - posA.x) +
        (posB.y - posA.y) * (posB.y - posA.y) ≠ 0 := by
      intro h
      rcases (add_mul_self_eq_zero_iff _ _).mp h with ⟨hx, hy⟩
      apply hne
      cases posA with
      | mk ax ay =>
        cases posB with
        | mk bx by' =>
          simp only [Vec2.mk.injEq]
          simp only at hx hy
          constructor <;> linarith
    have hdsq' : (posA.x - posB.x) * (posA.x - posB.x) +
        (posA.y - posB.y) * (posA.y - posB.y) ≠ 0 := by
      rw [hswap]
      exact hdsq
    unfold gravitationalForce
    rw [if_neg hdsq, if_neg hdsq']
    rw [hswap]
    constructor <;> ring
  · intro p massA massB s
    unfold gravitationalForce
    rw [if_pos (by ring)]

/-- Closed instance of `gravitationalForce_newton_third` at positions
`(0,0)`, `(1,0)` and unit masses. -/
theorem gravitationalForce_newton_third_witness :
    (gravitationalForce ⟨0, 0⟩ ⟨1, 0⟩ 1 1 1).x =
      -(gravitationalForce ⟨1, 0⟩ ⟨0, 0⟩ 1 1 1).x ∧
    (gravitationalForce ⟨0, 0⟩ ⟨1, 0⟩ 1 1 1).y =
      -(gravitationalForce ⟨1, 0⟩ ⟨0, 0⟩ 1 1 1).y :=
  gravitationalForce_newton_third.1 ⟨0, 0⟩ ⟨1, 0⟩ 1 1 1
    (fun h => zero_ne_one (congrArg Vec2.x h)) one_pos one_pos

/-- Helper: one `updateSatellite` keeps `orbitRadius` unchanged. -/
lemma updateSatellite_orbitRadius (sat : Satellite) (p : Vec2) (d : ℝ) :
    (updateSatellite sat p d).satellite.orbitRadius = sat.orbitRadius := rfl

/-- Helper: after one `updateSatellite`, the satellite sits at distance
`orbitRadius` from the parent position used for the update. -/
lemma updateSatellite_dist (sat : Satellite) (p : Vec2) (d : ℝ)
    (h : 0 ≤ sat.orbitRadius) :
    distance p (updateSatellite sat p d).satellite.position = sat.orbitRadius := by
  unfold updateSatellite distance
  simp only
  have key : (p.x + Real.cos (sat.orbitAngle + sat.orbitSpeed * d) * sat.orbitRadius - p.x) *
      (p.x + Real.cos (sat.orbitAngle + sat.orbitSpeed * d) * sat.orbitRadius - p.x) +
      (p.y + Real.sin (sat.orbitAngle + sat.orbitSpeed * d) * sat.orbitRadius - p.y) *
      (p.y + Real.sin (sat.orbitAngle + sat.orbitSpeed * d) * sat.orbitRadius - p.y) =
      sat.orbitRadius ^ 2 := by
    have hcs := Real.sin_sq_add_cos_sq (sat.orbitAngle + sat.orbitSpeed * d)
    linear_combination sat.orbitRadius ^ 2 * hcs
  rw [key, Real.sqrt_sq h]

/-- Helper: the fold of `updateSatellite` over a list of (parent position,
delta) pairs keeps `orbitRadius` unchanged. -/
lemma satelliteFold_orbitRadius (l : List (Vec2 × ℝ)) (sat : Satellite) :
    (l.foldl (fun s pd => (updateSatellite s pd.1 pd.2).satellite) sat).orbitRadius =
      sat.orbitRadius := by
  induction l generalizing sat with
  | nil => rfl
  | cons u rest ih =>
    rw [List.foldl_cons]
    exact ih _

/-- Helper: after folding `updateSatellite` over a non-empty list of updates,
the satellite sits at distance `orbitRadius` from the last parent position. -/
lemma satelliteFold_last_dist (l : List (Vec2 × ℝ)) (sat : Satellite)
    (p : Vec2) (d : ℝ) (h : 0 ≤ sat.orbitRadius)
    (hl : l.getLast? = some (p, d)) :
    distance p
        ((l.foldl (fun s pd => (updateSatellite s pd.1 pd.2).satellite) sat).position) =
      sat.orbitRadius := by
  induction l generalizing sat with
  | nil => simp at hl
  | cons u rest ih =>
    cases rest with
    | nil =>
      simp only [List.getLast?_singleton, Option.some.injEq] at hl
      subst hl
      rw [List.foldl_cons, List.foldl_nil]
      exact updateSatellite_dist sat p d h
    | cons v rest2 =>
      rw [List.getLast?_cons_cons] at hl
      rw [List.foldl_cons]
      exact ih _ h hl

/-- C9: the satellite returned by `updateSatellite` lies at distance exactly
`orbitRadius` from the parent position used for that update, with
`orbitRadius` itself unchanged; consequently after any non-empty sequence of
updates, the satellite's distance from the parent position of the last update
equals its original orbit radius. -/
theorem updateSatellite_orbit_distance_invariant :
    (∀ (sat : Satellite) (parentPosition : Vec2) (deltaMs : ℝ),
      0 ≤ sat.orbitRadius →
      distance parentPosition
          (updateSatellite sat parentPosition deltaMs).satellite.position =
        sat.orbitRadius ∧
      (updateSatellite sat parentPosition deltaMs).satellite.orbitRadius =
        sat.orbitRadius) ∧
    (∀ (sat : Satellite) (updates : List (Vec2 × ℝ))
      (parentPosition : Vec2) (deltaMs : ℝ),
      0 ≤ sat.orbitRadius →
      updates.getLast? = some (parentPosition, deltaMs) →
      (updates.foldl (fun s pd => (updateSatellite s pd.1 pd.2).satellite)
          sat).orbitRadius = sat.orbitRadius ∧
      distance parentPosition
          ((updates.foldl (fun s pd => (updateSatellite s pd.1 pd.2).satellite)
            sat).position) = sat.orbitRadius) := by
  constructor
  · intro sat parentPosition deltaMs h
    exact ⟨updateSatellite_dist sat parentPosition deltaMs h,
      updateSatellite_orbitRadius sat parentPosition deltaMs⟩
  · intro sat updates parentPosition deltaMs h hl
    exact ⟨satelliteFold_orbitRadius updates sat,
      satelliteFold_last_dist updates sat parentPosition deltaMs h hl⟩

/-- Closed instance of `updateSatellite_orbit_distance_invariant` at
`exampleSatellite` (orbit radius 1), one update and a one-element sequence. -/
theorem updateSatellite_orbit_distance_invariant_witness :
    (distance ⟨0, 0⟩ (updateSatellite exampleSatellite ⟨0, 0⟩ 16).satellite.position =
       exampleSatellite.orbitRadius ∧
     (updateSatellite exampleSatellite ⟨0, 0⟩ 16).satellite.orbitRadius =
       exampleSatellite.orbitRadius) ∧
    ([((⟨0, 0⟩ : Vec2), (16 : ℝ))].foldl
        (fun s pd => (updateSatellite s pd.1 pd.2).satellite)
        exampleSatellite).orbitRadius = exampleSatellite.orbitRadius ∧
    distance ⟨0, 0⟩
        (([((⟨0, 0⟩ : Vec2), (16 : ℝ))].foldl
          (fun s pd => (updateSatellite s pd.1 pd.2).satellite)
          exampleSatellite).position) = exampleSatellite.orbitRadius :=
  ⟨updateSatellite_orbit_distance_invariant.1 exampleSatellite ⟨0, 0⟩ 16 zero_le_one,
   updateSatellite_orbit_distance_invariant.2 exampleSatellite
     [((⟨0, 0⟩ : Vec2), (16 : ℝ))] ⟨0, 0⟩ 16 zero_le_one rfl⟩

/-- Helper: range bounds of `distanceToVolume` at the default maximum
distance. -/
lemma distanceToVolume_default_bounds (d : ℝ) :
    VOLUME_MIN ≤ distanceToVolume d MAX_AUDIBLE_DISTANCE ∧
    distanceToVolume d MAX_AUDIBLE_DISTANCE ≤ VOLUME_MAX := by
  unfold distanceToVolume VOLUME_MIN VOLUME_MAX MAX_AUDIBLE_DISTANCE
  split_ifs with h1 h2
  · norm_num
  · norm_num
  · exact ⟨le_max_left _ _, max_le (by norm_num) (min_le_left _ _)⟩

/-- C7: `distanceToVolume` (at the default `MAX_AUDIBLE_DISTANCE = 600`) is
monotone non-increasing on `[0, 600]`, always lies in
`[VOLUME_MIN, VOLUME_MAX] = [0.01, 1]`, equals 1 at distance 0, equals 0.01
at and beyond the maximum audible distance, and is never exactly 0. -/
theorem distanceToVolume_monotone_and_bounds :
    (∀ d1 d2 : ℝ, 0 ≤ d1 → d1 < d2 → d2 ≤ MAX_AUDIBLE_DISTANCE →
      distanceToVolume d2 MAX_AUDIBLE_DISTANCE ≤
        distanceToVolume d1 MAX_AUDIBLE_DISTANCE) ∧
    (∀ d : ℝ, VOLUME_MIN ≤ distanceToVolume d MAX_AUDIBLE_DISTANCE ∧
      distanceToVolume d MAX_AUDIBLE_DISTANCE ≤ VOLUME_MAX) ∧
    distanceToVolume 0 MAX_AUDIBLE_DISTANCE = VOLUME_MAX ∧
    (∀ d : ℝ, MAX_AUDIBLE_DISTANCE ≤ d →
      distanceToVolume d MAX_AUDIBLE_DISTANCE = VOLUME_MIN) ∧
    (∀ d : ℝ, distanceToVolume d MAX_AUDIBLE_DISTANCE ≠ 0) := by
  refine ⟨?_, distanceToVolume_default_bounds, ?_, ?_, ?_⟩
  · intro d1 d2 h0 h12 h2max
    have hd2 : ¬ (d2 ≤ 0) := by push_neg; linarith
    unfold distanceToVolume VOLUME_MIN VOLUME_MAX MAX_AUDIBLE_DISTANCE
    rw [if_neg hd2, if_neg (by norm_num : ¬ ((600 : ℝ) ≤ 0))]
    by_cases hd1 : d1 ≤ 0
    · rw [if_pos hd1]
      exact max_le (by norm_num) (min_le_left _ _)
    · rw [if_neg hd1, if_neg (by norm_num : ¬ ((600 : ℝ) ≤ 0))]
      have hmin : min (d1 / 600) 1 ≤ min (d2 / 600) 1 := by
        apply min_le_min _ le_rfl
        apply div_le_div_of_nonneg_right h12.le
        norm_num
      apply max_le_max le_rfl
      apply min_le_min le_rfl
      nlinarith [hmin]
  · unfold distanceToVolume VOLUME_MAX
    norm_num
  · intro d hd
    unfold MAX_AUDIBLE_DISTANCE at hd
    unfold distanceToVolume VOLUME_MIN VOLUME_MAX MAX_AUDIBLE_DISTANCE
    rw [if_neg (by push_neg; linarith : ¬ (d ≤ 0)),
      if_neg (by norm_num : ¬ ((600 : ℝ) ≤ 0))]
    have hmin : min (d / 600) 1 = 1 := by
      apply min_eq_right
      rw [le_div_iff₀ (by norm_num : (0:ℝ) < 600)]
      linarith
    show max 0.01 (min 1.0 (1.0 - min (d / 600) 1 * (1.0 - 0.01))) = 0.01
    rw [hmin]
    norm_num
  · intro d
    have h := (distanceToVolume_default_bounds d).1
    unfold VOLUME_MIN at h
    intro heq
    rw [heq] at h
    norm_num at h

/-- Closed instance of `distanceToVolume_monotone_and_bounds`: monotone step
from distance 1 to distance 2, and the clamp at distance 700. -/
theorem distanceToVolume_monotone_and_bounds_witness :
    distanceToVolume 2 MAX_AUDIBLE_DISTANCE ≤
      distanceToVolume 1 MAX_AUDIBLE_DISTANCE ∧
    distanceToVolume 700 MAX_AUDIBLE_DISTANCE = VOLUME_MIN :=
  ⟨distanceToVolume_monotone_and_bounds.1 1 2 (by norm_num) (by norm_num)
      (by norm_num [MAX_AUDIBLE_DISTANCE]),
   distanceToVolume_monotone_and_bounds.2.2.2.1 700
      (by norm_num [MAX_AUDIBLE_DISTANCE])⟩

/-- C4: for a planet with a live physics body and a non-empty note sequence,
`updatePlanet` reports a completed revolution exactly when `didCrossZero`
holds of the previous orbit angle and the fresh orbital angle of the body's
position (sign flip across zero with angular step below π after
normalisation); on a crossing the note cursor advances by exactly one modulo
the sequence length, otherwise it is unchanged. -/
theorem updatePlanet_revolution_advance
    (planet : Planet) (star : Star) (deltaMs : ℝ) (body : Body)
    (hseq : planet.noteSequence ≠ []) :
    ((updatePlanet planet star deltaMs (some body)).noteAdvanced ↔
      didCrossZero planet.orbitAngle (orbitalAngle star.position body.position)) ∧
    (didCrossZero planet.orbitAngle (orbitalAngle star.position body.position) →
      (updatePlanet planet star deltaMs (some body)).planet.currentNoteIndex =
        (planet.currentNoteIndex + 1) % planet.noteSequence.length) ∧
    (¬ didCrossZero planet.orbitAngle (orbitalAngle star.position body.position) →
      (updatePlanet planet star deltaMs (some body)).planet.currentNoteIndex =
        planet.currentNoteIndex) := by
  have hlen : 0 < planet.noteSequence.length := List.length_pos.mpr hseq
  refine ⟨?_, ?_, ?_⟩
  · by_cases hc : didCrossZero planet.orbitAngle (orbitalAngle star.position body.position)
    · simp only [updatePlanet]
      rw [if_pos ⟨hc, hlen⟩]
      exact iff_of_true trivial hc
    · simp only [updatePlanet]
      rw [if_neg (fun hand => hc hand.1)]
      exact iff_of_false (fun h => h) hc
  · intro hc
    simp only [updatePlanet]
    rw [if_pos ⟨hc, hlen⟩]
  · intro hc
    simp only [updatePlanet]
    rw [if_neg (fun hand => hc hand.1)]

/-- Closed instance of `updatePlanet_revolution_advance` at `examplePlanet`
(sequence of length 2), `exampleStar` and `examplePlanetBody`. -/
theorem updatePlanet_revolution_advance_witness :
    ((updatePlanet examplePlanet exampleStar 16 (some examplePlanetBody)).noteAdvanced ↔
      didCrossZero examplePlanet.orbitAngle
        (orbitalAngle exampleStar.position examplePlanetBody.position)) ∧
    (didCrossZero examplePlanet.orbitAngle
        (orbitalAngle exampleStar.position examplePlanetBody.position) →
      (updatePlanet examplePlanet exampleStar 16
          (some examplePlanetBody)).planet.currentNoteIndex =
        (examplePlanet.currentNoteIndex + 1) % examplePlanet.noteSequence.length) ∧
    (¬ didCrossZero examplePlanet.orbitAngle
        (orbitalAngle exampleStar.position examplePlanetBody.position) →
      (updatePlanet examplePlanet exampleStar 16
          (some examplePlanetBody)).planet.currentNoteIndex =
        examplePlanet.currentNoteIndex) :=
  updatePlanet_revolution_advance examplePlanet exampleStar 16 examplePlanetBody
    (by simp [examplePlanet])

/-- Helper: a fold of a constant-step function over `List.range n` is the
n-fold iterate. -/
lemma foldl_range_const {α : Type} (g : α → α) (n : ℕ) (a : α) :
    (List.range n).foldl (fun w _ => g w) a = g^[n] a := by
  induction n with
  | zero => rfl
  | succ n ih =>
    rw [List.range_succ, List.foldl_append, ih, List.foldl_cons, List.foldl_nil,
      Function.iterate_succ_apply']

/-- C3: for a playing simulation with a star, `tickSimulation` runs exactly
`schedulerSteps (deltaMs · timeScale) = max(1, round(scaledDelta / FIXED_STEP_MS))`
sub-steps, each applying gravity once and then advancing the opaque
integrator by `schedulerStepMs scaledDelta = scaledDelta / steps`; the step
count is at least 1 and the sub-step durations sum to `scaledDelta`. -/
theorem tickSimulation_fixed_step_scheduler
    (engineUpdate : List Body → ℝ → List Body) (sim : SimulationState)
    (deltaMs : ℝ) (star : Star)
    (hplay : sim.solarSystem.isPlaying = true)
    (hstar : sim.solarSystem.star = some star) :
    (tickSimulation engineUpdate sim deltaMs).physicsEngine.world =
      (fun w => engineUpdate
          (applyGravity w (tickGravitySources star sim.solarSystem.planets)
            sim.solarSystem.gravityStrength)
          (schedulerStepMs (deltaMs * sim.solarSystem.timeScale)))^[
        schedulerSteps (deltaMs * sim.solarSystem.timeScale)]
        sim.physicsEngine.world ∧
    (schedulerSteps (deltaMs * sim.solarSystem.timeScale) : ℤ) =
      max 1 (round (deltaMs * sim.solarSystem.timeScale / FIXED_STEP_MS)) ∧
    1 ≤ schedulerSteps (deltaMs * sim.solarSystem.timeScale) ∧
    (List.replicate (schedulerSteps (deltaMs * sim.solarSystem.timeScale))
        (schedulerStepMs (deltaMs * sim.solarSystem.timeScale))).sum =
      deltaMs * sim.solarSystem.timeScale := by
  have hone : 1 ≤ schedulerSteps (deltaMs * sim.solarSystem.timeScale) := by
    unfold schedulerSteps
    have h1 : ((1 : ℤ)).toNat ≤
        (max 1 (round (deltaMs * sim.solarSystem.timeScale / FIXED_STEP_MS))).toNat :=
      Int.toNat_le_toNat (le_max_left 1 _)
    exact h1
  refine ⟨?_, ?_, hone, ?_⟩
  · simp only [tickSimulation, hplay, hstar, Bool.not_true, Bool.false_eq_true,
      if_false]
    exact foldl_range_const _ _ _
  · unfold schedulerSteps
    exact Int.toNat_of_nonneg (le_trans zero_le_one (le_max_left 1 _))
  · rw [List.sum_replicate, nsmul_eq_mul]
    unfold schedulerStepMs
    have hne : ((schedulerSteps (deltaMs * sim.solarSystem.timeScale) : ℕ) : ℝ) ≠ 0 :=
      Nat.cast_ne_zero.mpr (Nat.one_le_iff_ne_zero.mp hone)
    rw [mul_div_cancel₀ _ hne]

/-- Closed instance of `tickSimulation_fixed_step_scheduler` at a playing
simulation with `exampleStar`, the identity integrator and a 16 ms frame. -/
theorem tickSimulation_fixed_step_scheduler_witness :
    (tickSimulation (fun w _ => w) examplePlayingSim 16).physicsEngine.world =
      (fun w => (fun w _ => w)
          (applyGravity w (tickGravitySources exampleStar examplePlayingSim.solarSystem.planets)
            examplePlayingSim.solarSystem.gravityStrength)
          (schedulerStepMs (16 * examplePlayingSim.solarSystem.timeScale)))^[
        schedulerSteps (16 * examplePlayingSim.solarSystem.timeScale)]
        examplePlayingSim.physicsEngine.world ∧
    (schedulerSteps (16 * examplePlayingSim.solarSystem.timeScale) : ℤ) =
      max 1 (round (16 * examplePlayingSim.solarSystem.timeScale / FIXED_STEP_MS)) ∧
    1 ≤ schedulerSteps (16 * examplePlayingSim.solarSystem.timeScale) ∧
    (List.replicate (schedulerSteps (16 * examplePlayingSim.solarSystem.timeScale))
        (schedulerStepMs (16 * examplePlayingSim.solarSystem.timeScale))).sum =
      16 * examplePlayingSim.solarSystem.timeScale :=
  tickSimulation_fixed_step_scheduler (fun w _ => w) examplePlayingSim 16
    exampleStar rfl rfl

/-- Helper: `restoreSnapshot` acts on the world as the per-body
`restoreBody` map. -/
lemma restoreSnapshot_eq_map (world : List Body) (snapshot : List BodySnapshot) :
    restoreSnapshot world snapshot = world.map (restoreBody snapshot) := by
  induction snapshot generalizing world with
  | nil =>
    rw [show restoreBody ([] : List BodySnapshot) = id from funext fun b => rfl,
      List.map_id]
    rfl
  | cons s rest ih =>
    rw [restoreSnapshot, List.foldl_cons]
    rw [show List.foldl _ (world.map fun b =>
        if s.bodyId == b.id && !b.isStatic then applyBodySnapshot b s else b) rest =
      restoreSnapshot (world.map fun b =>
        if s.bodyId == b.id && !b.isStatic then applyBodySnapshot b s else b) rest from rfl]
    rw [ih, List.map_map]
    rfl

/-- Helper: `restoreBody` leaves a static body untouched. -/
lemma restoreBody_static (snapshot : List BodySnapshot) (b : Body)
    (h : b.isStatic = true) : restoreBody snapshot b = b := by
  induction snapshot with
  | nil => rfl
  | cons s rest ih =>
    rw [restoreBody, List.foldl_cons]
    rw [show (if s.bodyId == b.id && !b.isStatic then applyBodySnapshot b s else b) = b by
      rw [h]; simp]
    exact ih

/-- Helper: `restoreBody` leaves a body untouched when no snapshot entry
carries its id. -/
lemma restoreBody_no_match (snapshot : List BodySnapshot) (b : Body)
    (h : ∀ s ∈ snapshot, s.bodyId ≠ b.id) : restoreBody snapshot b = b := by
  induction snapshot with
  | nil => rfl
  | cons s rest ih =>
    rw [restoreBody, List.foldl_cons]
    rw [show (if s.bodyId == b.id && !b.isStatic then applyBodySnapshot b s else b) = b by
      have : (s.bodyId == b.id) = false := by
        simpa using h s (List.mem_cons_self s rest)
      rw [this]; simp]
    exact ih (fun s2 hs2 => h s2 (List.mem_cons_of_mem s hs2))

/-- Helper: `applyBodySnapshot` keeps the body's id and static flag. -/
lemma applyBodySnapshot_id_isStatic (b : Body) (s : BodySnapshot) :
    (applyBodySnapshot b s).id = b.id ∧ (applyBodySnapshot b s).isStatic = b.isStatic :=
  ⟨rfl, rfl⟩

/-- Helper: under distinct snapshot ids, `restoreBody` restores a matched
non-static body to the matching entry's kinematics. -/
lemma restoreBody_found (snapshot : List BodySnapshot) (b : Body)
    (s : BodySnapshot)
    (hnodup : (snapshot.map BodySnapshot.bodyId).Nodup)
    (hs : s ∈ snapshot) (hid : s.bodyId = b.id) (hstat : b.isStatic = false) :
    restoreBody snapshot b = applyBodySnapshot b s := by
  induction snapshot with
  | nil => cases hs
  | cons s1 rest ih =>
    rw [List.map_cons, List.nodup_cons] at hnodup
    rcases List.mem_cons.mp hs with heq | hmem
    · subst heq
      rw [restoreBody, List.foldl_cons]
      rw [show (if s.bodyId == b.id && !b.isStatic then applyBodySnapshot b s else b) =
          applyBodySnapshot b s by
        rw [hstat]
        simp [hid]]
      have hrest : ∀ s2 ∈ rest, s2.bodyId ≠ (applyBodySnapshot b s).id := by
        intro s2 hs2
        rw [(applyBodySnapshot_id_isStatic b s).1, ← hid]
        intro hcontra
        exact hnodup.1 (hcontra ▸ List.mem_map_of_mem BodySnapshot.bodyId hs2)
      exact restoreBody_no_match rest (applyBodySnapshot b s) hrest
    · have h1 : s1.bodyId ≠ b.id := by
        rw [← hid]
        intro hcontra
        exact hnodup.1 (hcontra ▸ List.mem_map_of_mem BodySnapshot.bodyId hmem)
      rw [restoreBody, List.foldl_cons]
      rw [show (if s1.bodyId == b.id && !b.isStatic then applyBodySnapshot b s1 else b) = b by
        have : (s1.bodyId == b.id) = false := by simpa using h1
        rw [this]; simp]
      exact ih hnodup.2 hmem

/-- C6: `rewindSimulation` forces `isPlaying = false` and rewrites the world
as the per-body `restoreBody` map of the saved snapshot: a non-static body
matched by a snapshot entry gets exactly that entry's position, velocity,
angle and angular velocity; static bodies and bodies matched by no entry are
untouched; snapshot entries whose body is gone affect nothing (the function
is total and never errors). Snapshot ids are assumed distinct (Matter.js body
ids are unique). -/
theorem rewindSimulation_restores_snapshot (sim : SimulationState)
    (hnodup : (sim.loopState.initialSnapshot.map BodySnapshot.bodyId).Nodup) :
    (rewindSimulation sim).solarSystem.isPlaying = false ∧
    (rewindSimulation sim).physicsEngine.world =
      sim.physicsEngine.world.map (restoreBody sim.loopState.initialSnapshot) ∧
    (∀ b ∈ sim.physicsEngine.world, b.isStatic = true →
      restoreBody sim.loopState.initialSnapshot b = b) ∧
    (∀ b ∈ sim.physicsEngine.world, ∀ s ∈ sim.loopState.initialSnapshot,
      s.bodyId = b.id → b.isStatic = false →
      restoreBody sim.loopState.initialSnapshot b = applyBodySnapshot b s) ∧
    (∀ b ∈ sim.physicsEngine.world,
      (∀ s ∈ sim.loopState.initialSnapshot, s.bodyId ≠ b.id) →
      restoreBody sim.loopState.initialSnapshot b = b) := by
  refine ⟨rfl, ?_, ?_, ?_, ?_⟩
  · exact restoreSnapshot_eq_map sim.physicsEngine.world sim.loopState.initialSnapshot
  · intro b _ h
    exact restoreBody_static sim.loopState.initialSnapshot b h
  · intro b _ s hs hid hstat
    exact restoreBody_found sim.loopState.initialSnapshot b s hnodup hs hid hstat
  · intro b _ h
    exact restoreBody_no_match sim.loopState.initialSnapshot b h

/-- Closed instance of `rewindSimulation_restores_snapshot` at a world with
one dynamic body and a one-entry snapshot. -/
theorem rewindSimulation_restores_snapshot_witness :
    (rewindSimulation exampleRewindSim).solarSystem.isPlaying = false ∧
    (rewindSimulation exampleRewindSim).physicsEngine.world =
      exampleRewindSim.physicsEngine.world.map
        (restoreBody exampleRewindSim.loopState.initialSnapshot) ∧
    (∀ b ∈ exampleRewindSim.physicsEngine.world, b.isStatic = true →
      restoreBody exampleRewindSim.loopState.initialSnapshot b = b) ∧
    (∀ b ∈ exampleRewindSim.physicsEngine.world,
      ∀ s ∈ exampleRewindSim.loopState.initialSnapshot,
      s.bodyId = b.id → b.isStatic = false →
      restoreBody exampleRewindSim.loopState.initialSnapshot b = applyBodySnapshot b s) ∧
    (∀ b ∈ exampleRewindSim.physicsEngine.world,
      (∀ s ∈ exampleRewindSim.loopState.initialSnapshot, s.bodyId ≠ b.id) →
      restoreBody exampleRewindSim.loopState.initialSnapshot b = b) :=
  rewindSimulation_restores_snapshot exampleRewindSim
    (by simp [exampleRewindSim, createSimulation, createLoopState, exampleSnapshot])

end

end SolarSim
